import Mathlib

/-!
Verification development for the AutoML core: a shallow embedding of
`backend/models/automl_orchestrator.py`, `backend/utils/data_processor.py`
and `backend/utils/model_evaluator.py`, together with theorems checking the
natural-language specification against that code.

Python floats are modelled as `PyFloat` (a finite rational, NaN, or a signed
infinity); values produced by external numeric libraries (sklearn metric
scores, pandas column statistics) are taken as inputs of the embedded
functions, since the repository delegates those computations to opaque
libraries.  Dictionaries are modelled as association lists in insertion
order, matching Python dict semantics.
-/

/-- Observable value of a Python float: finite rational, NaN, or infinity. -/
inductive PyFloat where
  | finite (q : ℚ)
  | nan
  | inf
  | ninf
deriving DecidableEq, Repr

/-- A Python float is finite when it is neither NaN nor infinite. -/
def PyFloat.isFinite : PyFloat → Bool
  | .finite _ => true
  | _ => false

/-- A JSON-bound metric value: either Python `None` or a float. -/
inductive PyVal where
  | null
  | num (f : PyFloat)
deriving DecidableEq, Repr

/-- Embedding of `clean_nan_values` in `AutoMLOrchestrator._calculate_metrics`:
NaN and infinite values become `None`, finite floats pass through. -/
def cleanNanValues (v : PyFloat) : PyVal :=
  if v.isFinite then .num v else .null

/-- The spec's `is_finite_or_null` property for one metric value. -/
def isFiniteOrNull (v : PyVal) : Prop :=
  match v with
  | .null => True
  | .num f => f.isFinite = true

/-- Raw per-model scores handed back by the external sklearn metric calls
inside `_calculate_metrics` (train/test accuracy, weighted precision/recall/F1
for classification; MSE/MAE for both splits and test R² for regression). -/
structure RawScores where
  train_accuracy : PyFloat
  test_accuracy : PyFloat
  precision : PyFloat
  recallScore : PyFloat
  f1 : PyFloat
  train_mse : PyFloat
  test_mse : PyFloat
  train_mae : PyFloat
  test_mae : PyFloat
  r2 : PyFloat
deriving DecidableEq, Repr

/-- Embedding of `AutoMLOrchestrator._calculate_metrics`: builds the metrics
dict for the given problem type, normalizing every entry with
`clean_nan_values`. -/
def calculateMetrics (problemType : String) (raw : RawScores) : List (String × PyVal) :=
  if problemType == "classification" then
    [("train_accuracy", cleanNanValues raw.train_accuracy),
     ("test_accuracy", cleanNanValues raw.test_accuracy),
     ("precision", cleanNanValues raw.precision),
     ("recall", cleanNanValues raw.recallScore),
     ("f1_score", cleanNanValues raw.f1)]
  else
    [("train_mse", cleanNanValues raw.train_mse),
     ("test_mse", cleanNanValues raw.test_mse),
     ("train_mae", cleanNanValues raw.train_mae),
     ("test_mae", cleanNanValues raw.test_mae),
     ("r2_score", cleanNanValues raw.r2)]

/-- Pandas column dtype classes distinguished by the source
(`select_dtypes(include=[np.number])`, `include=['object','category']`,
`include=['datetime64']`). -/
inductive DType where
  | numeric
  | categorical
  | datetime
deriving DecidableEq, Repr

/-- Observable pandas statistics of one column, as consumed by the source:
dtype, `nunique()`, `isnull().sum()`, `value_counts()` (the list of counts of
each distinct value) and `var()` (NaN when undefined, hence a `PyFloat`). -/
structure Column where
  dtype : DType
  nunique : ℕ
  missing : ℕ
  counts : List ℕ
  variance : PyFloat
deriving DecidableEq, Repr

/-- A dataset: row count, `df.duplicated().sum()`, and named columns in
original order. -/
structure DataFrame where
  rows : ℕ
  duplicates : ℕ
  cols : List (String × Column)
deriving DecidableEq, Repr

/-- `df.size`: rows times columns. -/
def dfSize (df : DataFrame) : ℕ := df.rows * df.cols.length

/-- `df.isnull().sum().sum()`: total missing cells. -/
def totalMissing (df : DataFrame) : ℕ := (df.cols.map (fun p => p.2.missing)).sum

/-- Overall missing-value ratio `df.isnull().sum().sum() / df.size`. -/
def missingRatio (df : DataFrame) : ℚ := (totalMissing df : ℚ) / (dfSize df : ℚ)

/-- Duplicate-row ratio `df.duplicated().sum() / len(df)`. -/
def duplicateRatio (df : DataFrame) : ℚ := (df.duplicates : ℚ) / (df.rows : ℚ)

/-- Numeric columns, as selected by `select_dtypes(include=[np.number])`. -/
def numericCols (df : DataFrame) : List (String × Column) :=
  df.cols.filter (fun p => p.2.dtype == DType.numeric)

/-- Categorical columns, as selected by
`select_dtypes(include=['object','category'])`. -/
def categoricalCols (df : DataFrame) : List (String × Column) :=
  df.cols.filter (fun p => p.2.dtype == DType.categorical)

/-- The source's near-zero-variance test `df[col].var() < 1e-6`; a NaN
variance (pandas result on fewer than two observations) compares false. -/
def lowVariance (c : Column) : Bool :=
  match c.variance with
  | .finite q => decide (q < 1 / 1000000)
  | _ => false

/-- Number of low-variance numeric columns found by
`DataProcessor._assess_data_quality`. -/
def lowVarianceCount (df : DataFrame) : ℕ :=
  ((numericCols df).filter (fun p => lowVariance p.2)).length

/-- The source's high-cardinality test `df[col].nunique() / len(df) > 0.8`. -/
def highCardinality (rows : ℕ) (c : Column) : Bool :=
  decide ((c.nunique : ℚ) / (rows : ℚ) > 4 / 5)

/-- Number of high-cardinality categorical columns found by
`DataProcessor._assess_data_quality`. -/
def highCardinalityCount (df : DataFrame) : ℕ :=
  ((categoricalCols df).filter (fun p => highCardinality df.rows p.2)).length

/-- Result shape of `DataProcessor._assess_data_quality` (the
`recommendations` field is derived from `issues` and not needed here). -/
structure QualityReport where
  overall_score : ℚ
  issues : List String
deriving DecidableEq, Repr

/-- Embedding of `DataProcessor._assess_data_quality`: starts at 100, applies
the missing-value, duplicate-row, low-variance and high-cardinality
penalties in sequence, and floors the score at 0.  Issue strings keep the
source's fixed prefixes (the interpolated numerals are presentation only). -/
def assessDataQuality (df : DataFrame) : QualityReport :=
  let q0 : ℚ := 100
  let mr := missingRatio df
  let s1 : ℚ × List String :=
    if mr > 1 / 10 then (q0 - 20, ["High missing values"])
    else if mr > 1 / 20 then (q0 - 10, ["Moderate missing values"])
    else (q0, [])
  let dr := duplicateRatio df
  let s2 : ℚ × List String :=
    if dr > 1 / 10 then (s1.1 - 15, s1.2 ++ ["High duplicate rows"])
    else if dr > 1 / 20 then (s1.1 - 8, s1.2 ++ ["Moderate duplicate rows"])
    else s1
  let lv := lowVarianceCount df
  let s3 : ℚ × List String :=
    if lv ≠ 0 then (s2.1 - lv * 5, s2.2 ++ ["Low variance columns"])
    else s2
  let hc := highCardinalityCount df
  let s4 : ℚ × List String :=
    if hc ≠ 0 then (s3.1 - hc * 10, s3.2 ++ ["High cardinality columns"])
    else s3
  { overall_score := max 0 s4.1, issues := s4.2 }

/-- Embedding of `AutoMLOrchestrator._determine_problem_type`: a numeric
target whose unique-value ratio exceeds 0.05 means regression, everything
else classification. -/
def determineProblemType (rows : ℕ) (target : Column) : String :=
  if target.dtype == DType.numeric then
    if (target.nunique : ℚ) / (rows : ℚ) > 1 / 20 then "regression"
    else "classification"
  else "classification"

/-- One entry of `DataProcessor._identify_potential_targets`. -/
structure TargetInfo where
  column : String
  unique_values : ℕ
  missing_values : ℕ
  suitability_score : ℤ
  reasons : List String
deriving DecidableEq, Repr

/-- `value_counts().max()` of a column (0 on an empty count list, where the
pandas NaN compares false against 0 just like 0 does). -/
def maxCount (c : Column) : ℕ := (c.counts.max?).getD 0

/-- `value_counts().min()` of a column (0 on an empty count list). -/
def minCount (c : Column) : ℕ := (c.counts.min?).getD 0

/-- Embedding of the per-column scoring in
`DataProcessor._identify_potential_targets`: sequential score updates in
source order (categorical bonus, numeric bonus, missing-value penalty,
class-balance adjustment for columns with at most 10 distinct values). -/
def mkTargetInfo (rows : ℕ) (name : String) (c : Column) : TargetInfo :=
  let score0 : ℤ := 0
  let reasons0 : List String := []
  let s1 : ℤ × List String :=
    if c.dtype = DType.categorical then
      if 2 ≤ c.nunique ∧ c.nunique ≤ 20 then
        (score0 + 30, reasons0 ++ ["Good categorical target (2-20 categories)"])
      else if c.nunique > 20 then
        (score0 + 10, reasons0 ++ ["High cardinality categorical"])
      else (score0, reasons0)
    else if c.dtype = DType.numeric then
      if (c.nunique : ℚ) / (rows : ℚ) > 1 / 20 then
        (score0 + 25, reasons0 ++ ["Numeric with good variance"])
      else
        (score0 + 15, reasons0 ++ ["Numeric but low variance"])
    else (score0, reasons0)
  let s2 : ℤ × List String :=
    if (c.missing : ℚ) / (rows : ℚ) > 1 / 10 then
      (s1.1 - 20, s1.2 ++ ["High missing values"])
    else s1
  let s3 : ℤ × List String :=
    if c.nunique ≤ 10 then
      let balance : ℚ := if maxCount c > 0 then (minCount c : ℚ) / (maxCount c : ℚ) else 0
      if balance > 3 / 10 then (s2.1 + 15, s2.2 ++ ["Well-balanced classes"])
      else if balance > 1 / 10 then (s2.1 + 5, s2.2 ++ ["Moderately balanced classes"])
      else (s2.1 - 10, s2.2 ++ ["Imbalanced classes"])
    else s2
  { column := name, unique_values := c.nunique, missing_values := c.missing,
    suitability_score := s3.1, reasons := s3.2 }

/-- Descending-by-score comparison used to embed Python's stable
`list.sort(key=lambda x, reverse=True)` over target candidates. -/
def targetLe (a b : TargetInfo) : Bool :=
  decide (b.suitability_score ≤ a.suitability_score)

/-- Embedding of `DataProcessor._identify_potential_targets`: score every
column in original order, sort stably by descending suitability score, and
keep the first 5. -/
def identifyPotentialTargets (df : DataFrame) : List TargetInfo :=
  (((df.cols.map (fun p => mkTargetInfo df.rows p.1 p.2)).mergeSort targetLe).take 5)

/-- The claim's closed-form suitability score, written from the spec's words:
a sum of independent bonuses and penalties. -/
def specSuitability (rows : ℕ) (c : Column) : ℤ :=
  (if c.dtype = DType.categorical ∧ 2 ≤ c.nunique ∧ c.nunique ≤ 20 then 30 else 0)
  + (if c.dtype = DType.categorical ∧ c.nunique > 20 then 10 else 0)
  + (if c.dtype = DType.numeric ∧ (c.nunique : ℚ) / (rows : ℚ) > 1 / 20 then 25 else 0)
  + (if c.dtype = DType.numeric ∧ ¬((c.nunique : ℚ) / (rows : ℚ) > 1 / 20) then 15 else 0)
  + (if (c.missing : ℚ) / (rows : ℚ) > 1 / 10 then -20 else 0)
  + (if c.nunique ≤ 10 then
       (if (if maxCount c > 0 then (minCount c : ℚ) / (maxCount c : ℚ) else 0) > 3 / 10 then 15
        else if (if maxCount c > 0 then (minCount c : ℚ) / (maxCount c : ℚ) else 0) > 1 / 10 then 5
        else -10)
     else 0)

/-- The classification model registry of `AutoMLOrchestrator.__init__`, in
insertion order. -/
def classificationModels : List String :=
  ["random_forest", "logistic_regression", "svm", "naive_bayes",
   "decision_tree", "xgboost", "lightgbm"]

/-- The regression model registry of `AutoMLOrchestrator.__init__`, in
insertion order. -/
def regressionModels : List String :=
  ["random_forest", "linear_regression", "svm", "decision_tree",
   "xgboost", "lightgbm"]

/-- The registry selected for a problem type
(`self.classification_models if problem_type == "classification" else
self.regression_models`). -/
def modelDict (problemType : String) : List String :=
  if problemType == "classification" then classificationModels else regressionModels

/-- Default test fraction of `config.get("test_size", 0.2)`. -/
def defaultTestSize : ℚ := 1 / 5

/-- The small-dataset adjustment in `AutoMLOrchestrator.train_models`:
for fewer than 10 rows the test fraction becomes `min(0.1, 1/len)`,
otherwise the configured fraction is kept. -/
def adjustedTestSize (rows : ℕ) (testSize : ℚ) : ℚ :=
  if rows < 10 then min (1 / 10) (1 / (rows : ℚ)) else testSize

/-- Test-split size of sklearn's `train_test_split` for a float fraction:
`ceil(n * test_size)`. -/
def testCount (rows : ℕ) (testSize : ℚ) : ℕ :=
  (Int.ceil ((rows : ℚ) * testSize)).toNat

/-- The request-level error message raised for unknown model names in
`AutoMLOrchestrator.train_models`. -/
def invalidModelsMessage (invalid : List String) (problemType : String)
    (available : List String) : String :=
  "Invalid model(s) selected: " ++ String.intercalate ", " invalid
    ++ ". Available models for " ++ problemType ++ ": "
    ++ String.intercalate ", " available

/-- Per-model result dict built inside `train_models`; absent dict keys are
modelled by `Option`/empty defaults (an error result carries no
`training_time` or `metrics`). -/
structure TrainingResult where
  model : String
  status : String
  training_time : Option ℚ := Option.none
  metrics : List (String × PyVal) := []
  feature_importance : List (String × PyVal) := []
  error : Option String := Option.none
deriving DecidableEq, Repr

/-- Outcome of the opaque per-model fit/predict/metric computation: either
the fitted model's wall-clock time, raw metric scores and feature
importances, or a raised exception message. -/
inductive ModelOutcome where
  | fitted (training_time : ℚ) (raw : RawScores) (importance : List (String × PyVal))
  | raises (msg : String)
deriving DecidableEq, Repr

/-- The body of the per-model loop in `train_models`: a successful fit yields
a `status="success"` result with normalized metrics; a raised exception is
caught and recorded as a `status="error"` result with the message. -/
def trainSingleModel (problemType : String) (behavior : String → ModelOutcome)
    (name : String) : TrainingResult :=
  match behavior name with
  | .fitted t raw imp =>
      { model := name, status := "success", training_time := some t,
        metrics := calculateMetrics problemType raw, feature_importance := imp }
  | .raises msg =>
      { model := name, status := "error", error := some msg }

/-- Python dict assignment `d[k] = v` on an insertion-ordered association
list: replaces in place when the key exists, appends otherwise. -/
def dictInsert {α : Type} (l : List (String × α)) (k : String) (v : α) :
    List (String × α) :=
  if (l.lookup k).isSome then
    l.map (fun p => if p.1 == k then (k, v) else p)
  else l ++ [(k, v)]

/-- Configuration accepted by `train_models` (`test_size`, `random_state`
with defaults; absent keys modelled as `none`). -/
structure TrainConfig where
  test_size : Option ℚ := Option.none
  random_state : Option ℤ := Option.none
deriving DecidableEq, Repr

/-- Output of a successful `train_models` call: the per-model results dict,
the resolved problem type and the split shape. -/
structure TrainOutput where
  results : List (String × TrainingResult)
  problem_type : String
  train_rows : ℕ
  test_rows : ℕ
deriving DecidableEq, Repr

/-- Embedding of `AutoMLOrchestrator.train_models`: looks up the target
column, adjusts the test fraction for small datasets, resolves the problem
type and registry, raises (returns `.error`) for invalid model names, and
otherwise runs every selected model through the isolated per-model loop. -/
def trainModels (df : DataFrame) (target : String) (selectedModels : List String)
    (config : TrainConfig) (behavior : String → ModelOutcome) :
    Except String TrainOutput :=
  match df.cols.lookup target with
  | Option.none => .error ("KeyError: " ++ target)
  | some targetCol =>
    let testSize := adjustedTestSize df.rows (config.test_size.getD defaultTestSize)
    let nTest := testCount df.rows testSize
    let problemType := determineProblemType df.rows targetCol
    let dict := modelDict problemType
    let invalid := selectedModels.filter (fun m => ! dict.contains m)
    if invalid.isEmpty then
      let results := selectedModels.foldl
        (fun acc name =>
          if dict.contains name then
            dictInsert acc name (trainSingleModel problemType behavior name)
          else acc) []
      .ok { results := results, problem_type := problemType,
            train_rows := df.rows - nTest, test_rows := nTest }
    else
      .error (invalidModelsMessage invalid problemType dict)

/-- One entry of the results dict accepted by
`ModelEvaluator.compare_models`: a status, a metrics dict (every producer in
the repository attaches one to successful results) and an optional training
time. -/
structure EvalResult where
  status : String
  metrics : List (String × ℚ)
  training_time : Option ℚ := Option.none
deriving DecidableEq, Repr

/-- One row of the `ranking` list in the comparison report. -/
structure RankEntry where
  rank : ℕ
  model : String
  primary_score : Option ℚ
  training_time : Option ℚ
deriving DecidableEq, Repr

/-- The comparison summary built by `ModelEvaluator.compare_models`
(`detailed_comparison` and `insights` are derived fields not touched by the
claims settled here). -/
structure ComparisonReport where
  problem_type : String
  primary_metric : String
  model_count : ℕ
  ranking : List RankEntry
  best_model : Option String
deriving DecidableEq, Repr

/-- The problem-type detection loop of `compare_models`: inspect the first
successful result; `accuracy` in its metrics means classification, `mse`
means regression, anything else leaves the type undetermined. -/
def detectProblemType (results : List (String × EvalResult)) : Option String :=
  match results.find? (fun p => p.2.status == "success") with
  | Option.none => Option.none
  | some p =>
    if (p.2.metrics.lookup "accuracy").isSome then some "classification"
    else if (p.2.metrics.lookup "mse").isSome then some "regression"
    else Option.none

/-- Sort key of the ranking: `metrics.get(primary_metric, default)` with
default `0` for classification and `-inf` (bottom) for regression. -/
def rankKey (primaryMetric : String) (deflt : WithBot ℚ) (r : EvalResult) :
    WithBot ℚ :=
  match r.metrics.lookup primaryMetric with
  | some q => (q : WithBot ℚ)
  | Option.none => deflt

/-- Descending comparison used to embed Python's stable
`sorted(..., reverse=True)` in `compare_models`. -/
def evalLe (primaryMetric : String) (deflt : WithBot ℚ)
    (a b : String × EvalResult) : Bool :=
  decide (rankKey primaryMetric deflt b.2 ≤ rankKey primaryMetric deflt a.2)

/-- Embedding of `ModelEvaluator.compare_models`: empty input and
undetermined problem type and all-failed input each return an error-shaped
response; otherwise successful results are ranked descending by the primary
metric (`f1_score` for classification, `r2_score` for regression) and the
report carries the ranking and the top model. -/
def compareModels (modelResults : List (String × EvalResult)) :
    Except String ComparisonReport :=
  if modelResults.isEmpty then .error "No model results provided"
  else
    match detectProblemType modelResults with
    | Option.none => .error "Could not determine problem type from results"
    | some problemType =>
      let successful := modelResults.filter (fun p => p.2.status == "success")
      if successful.isEmpty then .error "No successful model results found"
      else
        let primaryMetric := if problemType == "classification" then "f1_score" else "r2_score"
        let deflt : WithBot ℚ :=
          if problemType == "classification" then ((0 : ℚ) : WithBot ℚ) else ⊥
        let ranking := successful.mergeSort (evalLe primaryMetric deflt)
        .ok { problem_type := problemType,
              primary_metric := primaryMetric,
              model_count := successful.length,
              ranking := ranking.enum.map (fun p =>
                { rank := p.1 + 1, model := p.2.1,
                  primary_score := p.2.2.metrics.lookup primaryMetric,
                  training_time := p.2.2.training_time }),
              best_model := ranking.head?.map (fun p => p.1) }

/-- Key of a ranking entry as used for sortedness statements: its
`primary_score`, falling back to the sort default when absent. -/
def entryKey (deflt : WithBot ℚ) (e : RankEntry) : WithBot ℚ :=
  match e.primary_score with
  | some q => (q : WithBot ℚ)
  | Option.none => deflt

/-- Payload of `AutoMLOrchestrator._get_rule_based_suggestions`: a fixed,
problem-type-keyed fallback recommendation. -/
structure RuleSuggestions where
  recommended_models : List String
  reasoning : String
deriving DecidableEq, Repr

/-- Embedding of `AutoMLOrchestrator._get_rule_based_suggestions`, keyed by
`data_summary.get("problem_type", "classification")`. -/
def getRuleBasedSuggestions (problemType : String) : RuleSuggestions :=
  if problemType == "classification" then
    { recommended_models := ["random_forest", "xgboost", "logistic_regression"],
      reasoning := "Random Forest and XGBoost are robust ensemble methods, Logistic Regression provides interpretability" }
  else
    { recommended_models := ["random_forest", "xgboost", "linear_regression"],
      reasoning := "Random Forest and XGBoost handle non-linear relationships, Linear Regression provides baseline" }

/-- Outcome of the body of `suggest_models`' `try` block: either the
successful recommendation payload (opaque here) or a raised exception
message together with the value the local `problem_type` variable holds when
the exception surfaces. -/
inductive SuggestInner (α : Type) where
  | ok (payload : α)
  | raises (msg : String) (problemTypeAtError : Option String)
deriving DecidableEq, Repr

/-- The caller-visible result of `suggest_models`: a total function, never an
exception. -/
inductive SuggestOutput (α : Type) where
  | success (payload : α)
  | errorFallback (error : String) (fallback_suggestions : RuleSuggestions)
deriving DecidableEq, Repr

/-- Embedding of `AutoMLOrchestrator.suggest_models`' error handling: the
whole body runs under `try`; any exception is converted into a payload with
an error message and the rule-based fallback for
`problem_type or "classification"`. -/
def suggestModels {α : Type} (inner : SuggestInner α) : SuggestOutput α :=
  match inner with
  | .ok payload => .success payload
  | .raises msg pt =>
      .errorFallback ("Error in model suggestion: " ++ msg)
        (getRuleBasedSuggestions (pt.getD "classification"))

/-! Helper lemmas -/

/-- Every value `clean_nan_values` lets through is finite or null. -/
theorem cleanNanValues_finite_or_null (v : PyFloat) :
    isFiniteOrNull (cleanNanValues v) := by
  unfold cleanNanValues isFiniteOrNull
  by_cases h : v.isFinite = true
  · simp [h]
  · simp [h]

/-- Every metric `_calculate_metrics` emits is finite or null. -/
theorem calculateMetrics_finite_or_null (problemType : String) (raw : RawScores) :
    ∀ kv ∈ calculateMetrics problemType raw, isFiniteOrNull kv.2 := by
  intro kv hkv
  unfold calculateMetrics at hkv
  split at hkv <;>
    simp only [List.mem_cons, List.not_mem_nil, or_false] at hkv <;>
    rcases hkv with rfl | rfl | rfl | rfl | rfl <;>
    exact cleanNanValues_finite_or_null _

/-- Membership in the results dict built by the per-model loop of
`train_models`: every entry is either carried over from the accumulator or
produced for some model name. -/
theorem mem_train_results_loop {g : String → Bool} {f : String → TrainingResult} :
    ∀ (selected : List String) (acc : List (String × TrainingResult))
      (p : String × TrainingResult),
      p ∈ selected.foldl (fun a n => if g n then dictInsert a n (f n) else a) acc →
      p ∈ acc ∨ ∃ n, p = (n, f n) := by
  intro selected
  induction selected with
  | nil => exact fun acc p hp => Or.inl hp
  | cons n ns ih =>
    intro acc p hp
    simp only [List.foldl_cons] at hp
    rcases ih _ p hp with h | h
    · by_cases hg : g n = true
      · rw [if_pos hg] at h
        unfold dictInsert at h
        split at h
        · rcases List.mem_map.mp h with ⟨q, hq, hq2⟩
          by_cases hqn : (q.1 == n) = true
          · rw [if_pos hqn] at hq2
            exact Or.inr ⟨n, hq2.symm⟩
          · rw [if_neg hqn] at hq2
            exact Or.inl (hq2 ▸ hq)
        · rcases List.mem_append.mp h with h1 | h1
          · exact Or.inl h1
          · simp only [List.mem_singleton] at h1
            exact Or.inr ⟨n, h1⟩
      · rw [if_neg hg] at h
        exact Or.inl h
    · exact Or.inr h

/-! Claim theorems -/

/-- Claim C5: the problem-type classifier returns regression exactly when the
target column is numeric with unique-value ratio strictly above 0.05, and
classification in every other case. -/
theorem determine_problem_type_iff (rows : ℕ) (c : Column) (_h : 0 < rows) :
    (determineProblemType rows c = "regression" ↔
      c.dtype = DType.numeric ∧ (c.nunique : ℚ) / (rows : ℚ) > 1 / 20)
    ∧ (determineProblemType rows c = "classification" ↔
      ¬(c.dtype = DType.numeric ∧ (c.nunique : ℚ) / (rows : ℚ) > 1 / 20)) := by
  by_cases hd : c.dtype = DType.numeric
  · by_cases hq : (c.nunique : ℚ) / (rows : ℚ) > 1 / 20
    · simp [determineProblemType, hd, hq]
    · simp [determineProblemType, hd, hq]
  · simp [determineProblemType, hd]

/-- Witness for C5: 10 rows, numeric target with 9 distinct values gives
ratio 0.9 > 0.05, hence regression. -/
theorem determine_problem_type_iff_witness :
    determineProblemType 10
      { dtype := DType.numeric, nunique := 9, missing := 0, counts := [],
        variance := PyFloat.nan } = "regression" :=
  (determine_problem_type_iff 10
    { dtype := DType.numeric, nunique := 9, missing := 0, counts := [],
      variance := PyFloat.nan } (by decide)).1.mpr ⟨rfl, by norm_num⟩

/-- Claim C4: in every successful TrainingResult returned by
`train_models`, every metric value is a finite float or null; NaN and
infinities were normalized to null. -/
theorem train_models_metrics_finite_or_null
    (df : DataFrame) (target : String) (selectedModels : List String)
    (config : TrainConfig) (behavior : String → ModelOutcome) (out : TrainOutput)
    (h : trainModels df target selectedModels config behavior = Except.ok out) :
    ∀ p ∈ out.results, p.2.status = "success" →
      ∀ kv ∈ p.2.metrics, isFiniteOrNull kv.2 := by
  intro p hp _ kv hkv
  unfold trainModels at h
  split at h
  · exact absurd h (by simp)
  · simp only [] at h
    split at h
    · rw [Except.ok.injEq] at h
      subst h
      simp only at hp
      rcases mem_train_results_loop selectedModels [] p hp with hmem | ⟨n, rfl⟩
      · exact absurd hmem (List.not_mem_nil p)
      · unfold trainSingleModel at hkv
        cases hb : behavior n with
        | fitted t raw imp =>
          rw [hb] at hkv
          exact calculateMetrics_finite_or_null _ raw kv hkv
        | raises msg =>
          rw [hb] at hkv
          simp at hkv
    · exact absurd h (by simp)

/-- Witness for C4: in a concrete one-model training run, the success
result's train_accuracy metric value is finite-or-null. -/
theorem train_models_metrics_finite_or_null_witness :
    isFiniteOrNull (PyVal.num (PyFloat.finite 1)) :=
  train_models_metrics_finite_or_null
    { rows := 10, duplicates := 0,
      cols := [("t", { dtype := DType.categorical, nunique := 2, missing := 0,
                       counts := [5, 5], variance := PyFloat.nan })] }
    "t" ["random_forest"] {}
    (fun _ => ModelOutcome.fitted 1
      ⟨PyFloat.finite 1, PyFloat.finite 1, PyFloat.finite 1, PyFloat.finite 1,
       PyFloat.finite 1, PyFloat.finite 1, PyFloat.finite 1, PyFloat.finite 1,
       PyFloat.finite 1, PyFloat.finite 1⟩ [])
    { results := [("random_forest",
        { model := "random_forest", status := "success", training_time := some 1,
          metrics :=
            [("train_accuracy", PyVal.num (PyFloat.finite 1)),
             ("test_accuracy", PyVal.num (PyFloat.finite 1)),
             ("precision", PyVal.num (PyFloat.finite 1)),
             ("recall", PyVal.num (PyFloat.finite 1)),
             ("f1_score", PyVal.num (PyFloat.finite 1))],
          feature_importance := [], error := Option.none })],
      problem_type := "classification", train_rows := 8, test_rows := 2 }
    (by
      norm_num [trainModels, adjustedTestSize, testCount, defaultTestSize,
        determineProblemType, modelDict, classificationModels, dictInsert,
        trainSingleModel, calculateMetrics, cleanNanValues, PyFloat.isFinite]
      simp [regressionModels])
    ("random_forest",
      { model := "random_forest", status := "success", training_time := some 1,
        metrics :=
          [("train_accuracy", PyVal.num (PyFloat.finite 1)),
           ("test_accuracy", PyVal.num (PyFloat.finite 1)),
           ("precision", PyVal.num (PyFloat.finite 1)),
           ("recall", PyVal.num (PyFloat.finite 1)),
           ("f1_score", PyVal.num (PyFloat.finite 1))],
        feature_importance := [], error := Option.none })
    (by simp)
    rfl
    ("train_accuracy", PyVal.num (PyFloat.finite 1))
    (by simp)

/-- Claim C10: the suggestion entry point is a total function; whenever the
internal computation throws, the caller receives a payload holding an error
message plus rule-based fallback suggestions with a non-empty
recommended-models list and non-empty reasoning. -/
theorem suggest_models_never_raises {α : Type} (inner : SuggestInner α) :
    (∃ payload, suggestModels inner = SuggestOutput.success payload)
    ∨ (∃ msg pt, inner = SuggestInner.raises msg pt
        ∧ suggestModels inner
            = SuggestOutput.errorFallback ("Error in model suggestion: " ++ msg)
                (getRuleBasedSuggestions (pt.getD "classification"))
        ∧ (getRuleBasedSuggestions (pt.getD "classification")).recommended_models.length = 3
        ∧ (getRuleBasedSuggestions (pt.getD "classification")).reasoning ≠ "") := by
  cases inner with
  | ok payload => exact Or.inl ⟨payload, rfl⟩
  | raises msg pt =>
    refine Or.inr ⟨msg, pt, rfl, rfl, ?_, ?_⟩
    · unfold getRuleBasedSuggestions
      split
      · rfl
      · rfl
    · unfold getRuleBasedSuggestions
      split
      · simp
      · simp

/-- Counterexample for C3: with 5 rows and a configured test fraction of
0.05 the adjustment produces 0.1, which is larger than the configured
fraction, not smaller. -/
theorem adjusted_test_size_not_smaller :
    adjustedTestSize 5 (1 / 20) = 1 / 10
    ∧ ¬ adjustedTestSize 5 (1 / 20) < 1 / 20 := by
  unfold adjustedTestSize
  norm_num

/-- Claim C3 (amended): for datasets with fewer than 10 rows (and at least
one row), `train_models` replaces the configured test fraction with
`min(0.1, 1/n) = 0.1` — smaller than the default 0.2, though not necessarily
smaller than an explicitly configured fraction at or below 0.1 — and the
resulting sklearn test split `ceil(n * 0.1)` contains at least one sample. -/
theorem adjusted_test_size_spec (rows : ℕ) (ts : ℚ)
    (h1 : 1 ≤ rows) (h9 : rows < 10) :
    adjustedTestSize rows ts = 1 / 10
    ∧ adjustedTestSize rows ts < defaultTestSize
    ∧ 1 ≤ testCount rows (adjustedTestSize rows ts) := by
  have hrpos : (0 : ℚ) < (rows : ℚ) := by exact_mod_cast h1
  have hr : adjustedTestSize rows ts = 1 / 10 := by
    unfold adjustedTestSize
    rw [if_pos h9]
    refine min_eq_left ?_
    refine one_div_le_one_div_of_le hrpos ?_
    exact_mod_cast Nat.le_of_lt h9
  refine ⟨hr, ?_, ?_⟩
  · rw [hr]; unfold defaultTestSize; norm_num
  · rw [hr]
    unfold testCount
    have hpos : (0 : ℚ) < (rows : ℚ) * (1 / 10) := by positivity
    have hceil : 0 < Int.ceil ((rows : ℚ) * (1 / 10)) := Int.ceil_pos.mpr hpos
    omega

/-- Witness for C3 (amended): a 5-row dataset with the default 0.2 fraction
gets test fraction 0.1 and a non-empty test split. -/
theorem adjusted_test_size_spec_witness :
    adjustedTestSize 5 (1 / 5) = 1 / 10
    ∧ adjustedTestSize 5 (1 / 5) < defaultTestSize
    ∧ 1 ≤ testCount 5 (adjustedTestSize 5 (1 / 5)) :=
  adjusted_test_size_spec 5 (1 / 5) (by norm_num) (by norm_num)

/-- Claim C6: the profiler's quality score equals 100 minus exactly the
listed deductions, floored at 0; it always lies in [0, 100] and is
non-increasing as issue intensities (missing ratio, duplicate ratio,
low-variance and high-cardinality column counts) grow. -/
theorem quality_score_spec (df : DataFrame) :
    (assessDataQuality df).overall_score
      = max 0 (100
          - (if missingRatio df > 1 / 10 then (20 : ℚ)
             else if missingRatio df > 1 / 20 then 10 else 0)
          - (if duplicateRatio df > 1 / 10 then (15 : ℚ)
             else if duplicateRatio df > 1 / 20 then 8 else 0)
          - 5 * (lowVarianceCount df : ℚ)
          - 10 * (highCardinalityCount df : ℚ))
    ∧ 0 ≤ (assessDataQuality df).overall_score
    ∧ (assessDataQuality df).overall_score ≤ 100
    ∧ (∀ df' : DataFrame,
        missingRatio df ≤ missingRatio df' →
        duplicateRatio df ≤ duplicateRatio df' →
        lowVarianceCount df ≤ lowVarianceCount df' →
        highCardinalityCount df ≤ highCardinalityCount df' →
        (assessDataQuality df').overall_score ≤ (assessDataQuality df).overall_score) := by
  have score_eq : ∀ d : DataFrame,
      (assessDataQuality d).overall_score
        = max 0 (100
            - (if missingRatio d > 1 / 10 then (20 : ℚ)
               else if missingRatio d > 1 / 20 then 10 else 0)
            - (if duplicateRatio d > 1 / 10 then (15 : ℚ)
               else if duplicateRatio d > 1 / 20 then 8 else 0)
            - 5 * (lowVarianceCount d : ℚ)
            - 10 * (highCardinalityCount d : ℚ)) := by
    intro d
    unfold assessDataQuality
    simp only []
    split_ifs <;>
      simp_all only [not_not, Nat.cast_zero] <;>
      ring_nf
  have mpen_nonneg : ∀ d : DataFrame,
      (0 : ℚ) ≤ (if missingRatio d > 1 / 10 then (20 : ℚ)
                 else if missingRatio d > 1 / 20 then 10 else 0) := by
    intro d; split_ifs <;> norm_num
  have dpen_nonneg : ∀ d : DataFrame,
      (0 : ℚ) ≤ (if duplicateRatio d > 1 / 10 then (15 : ℚ)
                 else if duplicateRatio d > 1 / 20 then 8 else 0) := by
    intro d; split_ifs <;> norm_num
  have mpen_mono : ∀ d d' : DataFrame, missingRatio d ≤ missingRatio d' →
      (if missingRatio d > 1 / 10 then (20 : ℚ)
       else if missingRatio d > 1 / 20 then 10 else 0)
      ≤ (if missingRatio d' > 1 / 10 then (20 : ℚ)
         else if missingRatio d' > 1 / 20 then 10 else 0) := by
    intro d d' hle
    split_ifs <;> linarith
  have dpen_mono : ∀ d d' : DataFrame, duplicateRatio d ≤ duplicateRatio d' →
      (if duplicateRatio d > 1 / 10 then (15 : ℚ)
       else if duplicateRatio d > 1 / 20 then 8 else 0)
      ≤ (if duplicateRatio d' > 1 / 10 then (15 : ℚ)
         else if duplicateRatio d' > 1 / 20 then 8 else 0) := by
    intro d d' hle
    split_ifs <;> linarith
  refine ⟨score_eq df, ?_, ?_, ?_⟩
  · rw [score_eq df]; exact le_max_left _ _
  · rw [score_eq df]
    refine max_le (by norm_num) ?_
    have h1 := mpen_nonneg df
    have h2 := dpen_nonneg df
    have h3 : (0 : ℚ) ≤ 5 * (lowVarianceCount df : ℚ) := by positivity
    have h4 : (0 : ℚ) ≤ 10 * (highCardinalityCount df : ℚ) := by positivity
    linarith
  · intro df' hm hd hl hh
    rw [score_eq df, score_eq df']
    refine max_le_max le_rfl ?_
    have h1 := mpen_mono df df' hm
    have h2 := dpen_mono df df' hd
    have h3 : (lowVarianceCount df : ℚ) ≤ (lowVarianceCount df' : ℚ) := by
      exact_mod_cast hl
    have h4 : (highCardinalityCount df : ℚ) ≤ (highCardinalityCount df' : ℚ) := by
      exact_mod_cast hh
    linarith

/-- Witness for C6: a clean one-column frame scores at least as high as the
same frame with missing cells, duplicate rows and a zero-variance column. -/
theorem quality_score_spec_witness :
    (assessDataQuality
      { rows := 10, duplicates := 2,
        cols := [("a", { dtype := DType.numeric, nunique := 10, missing := 2,
                         counts := [], variance := PyFloat.finite 0 })] }).overall_score
    ≤ (assessDataQuality
      { rows := 10, duplicates := 0,
        cols := [("a", { dtype := DType.numeric, nunique := 10, missing := 0,
                         counts := [], variance := PyFloat.finite 1 })] }).overall_score :=
  (quality_score_spec
    { rows := 10, duplicates := 0,
      cols := [("a", { dtype := DType.numeric, nunique := 10, missing := 0,
                       counts := [], variance := PyFloat.finite 1 })] }).2.2.2
    { rows := 10, duplicates := 2,
      cols := [("a", { dtype := DType.numeric, nunique := 10, missing := 2,
                       counts := [], variance := PyFloat.finite 0 })] }
    (by norm_num [missingRatio, totalMissing, dfSize])
    (by norm_num [duplicateRatio])
    (by norm_num [lowVarianceCount, numericCols, lowVariance])
    (by simp [highCardinalityCount, categoricalCols])

/-- `targetLe` is transitive. -/
theorem targetLe_trans : ∀ a b c : TargetInfo,
    targetLe a b = true → targetLe b c = true → targetLe a c = true := by
  intro a b c hab hbc
  unfold targetLe at *
  rw [decide_eq_true_iff] at *
  omega

/-- `targetLe` is total. -/
theorem targetLe_total : ∀ a b : TargetInfo,
    (targetLe a b || targetLe b a) = true := by
  intro a b
  unfold targetLe
  rcases le_total b.suitability_score a.suitability_score with h | h
  · simp [h]
  · simp [h]

/-- Stability of the candidate sort: entries with any fixed score keep their
original relative order (their filtered subsequences coincide). -/
theorem mergeSort_targetLe_stable (l : List TargetInfo) (s : ℤ) :
    (l.mergeSort targetLe).filter (fun t => t.suitability_score == s)
      = l.filter (fun t => t.suitability_score == s) := by
  have hpw : (l.filter (fun t => t.suitability_score == s)).Pairwise
      (fun a b => targetLe a b = true) := by
    refine List.pairwise_of_forall_mem_list ?_
    intro a ha b hb
    have ha' : a.suitability_score = s := by
      have := (List.mem_filter.mp ha).2
      rwa [beq_iff_eq] at this
    have hb' : b.suitability_score = s := by
      have := (List.mem_filter.mp hb).2
      rwa [beq_iff_eq] at this
    unfold targetLe
    rw [decide_eq_true_iff, ha', hb']
  have hsub : (l.filter (fun t => t.suitability_score == s)).Sublist
      (l.mergeSort targetLe) :=
    List.sublist_mergeSort targetLe_trans targetLe_total hpw (List.filter_sublist l)
  have hsub2 : ((l.filter (fun t => t.suitability_score == s)).filter
      (fun t => t.suitability_score == s)).Sublist
      ((l.mergeSort targetLe).filter (fun t => t.suitability_score == s)) :=
    hsub.filter _
  rw [List.filter_eq_self.mpr (fun a ha => (List.mem_filter.mp ha).2)] at hsub2
  have hperm : ((l.mergeSort targetLe).filter
      (fun t => t.suitability_score == s)).Perm
      (l.filter (fun t => t.suitability_score == s)) :=
    (List.mergeSort_perm l targetLe).filter _
  exact (hsub2.eq_of_length hperm.length_eq.symm).symm

/-- The sequential per-column scoring of `_identify_potential_targets`
agrees with the claim's closed-form sum of bonuses and penalties. -/
theorem mkTargetInfo_score_eq (rows : ℕ) (name : String) (c : Column) :
    (mkTargetInfo rows name c).suitability_score = specSuitability rows c := by
  cases hd : c.dtype <;>
    simp only [mkTargetInfo, specSuitability, hd, reduceCtorEq, eq_self_iff_true,
      true_and, false_and, if_true, if_false] <;>
    split_ifs <;>
    omega

/-- Claim C9: the profiler's target-candidate list has at most 5 entries,
each column's suitability score equals the claim's closed-form sum, the
returned list is the 5-element descending prefix of the stably sorted
candidate list, and ties keep original column order. -/
theorem identify_potential_targets_spec (df : DataFrame) (_h : 0 < df.rows) :
    (identifyPotentialTargets df).length ≤ 5
    ∧ (∀ p ∈ df.cols,
        (mkTargetInfo df.rows p.1 p.2).suitability_score = specSuitability df.rows p.2)
    ∧ List.Pairwise (fun a b => b.suitability_score ≤ a.suitability_score)
        (identifyPotentialTargets df)
    ∧ identifyPotentialTargets df
        = ((df.cols.map (fun p => mkTargetInfo df.rows p.1 p.2)).mergeSort targetLe).take 5
    ∧ (∀ s : ℤ,
        ((df.cols.map (fun p => mkTargetInfo df.rows p.1 p.2)).mergeSort
            targetLe).filter (fun t => t.suitability_score == s)
          = (df.cols.map (fun p => mkTargetInfo df.rows p.1 p.2)).filter
              (fun t => t.suitability_score == s)) := by
  refine ⟨?_, ?_, ?_, rfl, ?_⟩
  · unfold identifyPotentialTargets
    rw [List.length_take]
    exact min_le_left _ _
  · exact fun p _ => mkTargetInfo_score_eq df.rows p.1 p.2
  · have hsorted := List.sorted_mergeSort targetLe_trans targetLe_total
      (df.cols.map (fun p => mkTargetInfo df.rows p.1 p.2))
    have htake : (identifyPotentialTargets df).Pairwise
        (fun a b => targetLe a b = true) :=
      List.Pairwise.sublist (List.take_sublist 5 _) hsorted
    refine htake.imp ?_
    intro a b hab
    unfold targetLe at hab
    rwa [decide_eq_true_iff] at hab
  · exact fun s => mergeSort_targetLe_stable _ s

/-- Witness for C9: the candidate list of a concrete two-column frame has at
most 5 entries. -/
theorem identify_potential_targets_spec_witness :
    (identifyPotentialTargets
      { rows := 4, duplicates := 0,
        cols := [("label", { dtype := DType.categorical, nunique := 2, missing := 0,
                             counts := [2, 2], variance := PyFloat.nan }),
                 ("x", { dtype := DType.numeric, nunique := 4, missing := 0,
                         counts := [1, 1, 1, 1], variance := PyFloat.finite 1 })] }).length
      ≤ 5 :=
  (identify_potential_targets_spec
    { rows := 4, duplicates := 0,
      cols := [("label", { dtype := DType.categorical, nunique := 2, missing := 0,
                           counts := [2, 2], variance := PyFloat.nan }),
               ("x", { dtype := DType.numeric, nunique := 4, missing := 0,
                       counts := [1, 1, 1, 1], variance := PyFloat.finite 1 })] }
    (by decide)).1

/-- Lookup distributes over append when the key is absent on the left. -/
theorem lookup_append_none {α : Type} :
    ∀ (l₁ l₂ : List (String × α)) (k : String),
      l₁.lookup k = Option.none → (l₁ ++ l₂).lookup k = l₂.lookup k := by
  intro l₁
  induction l₁ with
  | nil => intro l₂ k _; simp
  | cons p ps ih =>
    intro l₂ k hk
    simp only [List.lookup, List.cons_append] at *
    by_cases h : (k == p.1) = true
    · rw [h] at hk
      simp at hk
    · cases p
      simp only [List.lookup] at *
      rw [Bool.of_not_eq_true h] at hk ⊢
      exact ih l₂ k hk

/-- Lookup of a present key in the key-tagged image of a duplicate-free
list. -/
theorem lookup_map_self {f : String → TrainingResult} :
    ∀ (l : List String) (m : String), m ∈ l →
      ((l.map (fun n => (n, f n))).lookup m) = some (f m) := by
  intro l
  induction l with
  | nil => intro m hm; simp at hm
  | cons n ns ih =>
    intro m hm
    simp only [List.map_cons, List.lookup]
    by_cases h : (m == n) = true
    · rw [h]
      rw [beq_iff_eq] at h
      rw [h]
    · rw [Bool.of_not_eq_true h]
      rcases List.mem_cons.mp hm with rfl | hm'
      · simp at h
      · exact ih m hm'

/-- The per-model loop of `train_models`, on duplicate-free valid names with
fresh accumulator keys, appends one result per selected model in order. -/
theorem train_loop_eq (pt : String) (behavior : String → ModelOutcome)
    (dict : List String) :
    ∀ (selected : List String) (acc : List (String × TrainingResult)),
      (∀ m ∈ selected, dict.contains m = true) →
      (∀ m ∈ selected, acc.lookup m = Option.none) →
      selected.Nodup →
      selected.foldl
        (fun acc name =>
          if dict.contains name then
            dictInsert acc name (trainSingleModel pt behavior name)
          else acc) acc
        = acc ++ selected.map (fun n => (n, trainSingleModel pt behavior n)) := by
  intro selected
  induction selected with
  | nil => intro acc _ _ _; simp
  | cons n ns ih =>
    intro acc hg hacc hnd
    simp only [List.foldl_cons]
    rw [if_pos (hg n (List.mem_cons_self n ns))]
    have hlk : acc.lookup n = Option.none := hacc n (List.mem_cons_self n ns)
    have hins : dictInsert acc n (trainSingleModel pt behavior n)
        = acc ++ [(n, trainSingleModel pt behavior n)] := by
      unfold dictInsert
      rw [hlk]
      simp
    rw [hins, ih]
    · simp
    · exact fun m hm => hg m (List.mem_cons_of_mem n hm)
    · intro m hm
      have h1 : acc.lookup m = Option.none := hacc m (List.mem_cons_of_mem n hm)
      have hmn : (m == n) = false := by
        have : m ≠ n := by
          intro hEq
          subst hEq
          exact (List.nodup_cons.mp hnd).1 hm
        simp [this]
      rw [lookup_append_none acc _ m h1]
      simp [List.lookup, hmn]
    · exact (List.nodup_cons.mp hnd).2

/-- Claim C7: a training request naming any model outside the registry for
the resolved problem type yields the request-level error built from the full
list of invalid names and the full list of available models, and no
TrainingResult is produced for any requested model. -/
theorem train_models_invalid_models
    (df : DataFrame) (target : String) (selectedModels : List String)
    (config : TrainConfig) (behavior : String → ModelOutcome) (tc : Column)
    (hcol : df.cols.lookup target = some tc)
    (hbad : ∃ m ∈ selectedModels,
      (modelDict (determineProblemType df.rows tc)).contains m = false) :
    selectedModels.filter
        (fun m => ! (modelDict (determineProblemType df.rows tc)).contains m) ≠ []
    ∧ trainModels df target selectedModels config behavior
        = Except.error (invalidModelsMessage
            (selectedModels.filter
              (fun m => ! (modelDict (determineProblemType df.rows tc)).contains m))
            (determineProblemType df.rows tc)
            (modelDict (determineProblemType df.rows tc)))
    ∧ (∀ m ∈ selectedModels,
        (modelDict (determineProblemType df.rows tc)).contains m = false →
          m ∈ selectedModels.filter
            (fun m => ! (modelDict (determineProblemType df.rows tc)).contains m))
    ∧ (∀ out, trainModels df target selectedModels config behavior ≠ Except.ok out) := by
  obtain ⟨m0, hm0, hm0bad⟩ := hbad
  have hmem : m0 ∈ selectedModels.filter
      (fun m => ! (modelDict (determineProblemType df.rows tc)).contains m) :=
    List.mem_filter.mpr ⟨hm0, by rw [hm0bad]; rfl⟩
  have hne : selectedModels.filter
      (fun m => ! (modelDict (determineProblemType df.rows tc)).contains m) ≠ [] := by
    intro hnil
    rw [hnil] at hmem
    exact List.not_mem_nil m0 hmem
  have hempty : (selectedModels.filter
      (fun m => ! (modelDict (determineProblemType df.rows tc)).contains m)).isEmpty
        = false := by
    rw [List.isEmpty_eq_false]
    exact hne
  have herr : trainModels df target selectedModels config behavior
      = Except.error (invalidModelsMessage
          (selectedModels.filter
            (fun m => ! (modelDict (determineProblemType df.rows tc)).contains m))
          (determineProblemType df.rows tc)
          (modelDict (determineProblemType df.rows tc))) := by
    unfold trainModels
    rw [hcol]
    simp only [hempty, Bool.false_eq_true, if_false]
  refine ⟨hne, herr, ?_, ?_⟩
  · intro m hm hmbad
    exact List.mem_filter.mpr ⟨hm, by rw [hmbad]; rfl⟩
  · intro out hok
    rw [herr] at hok
    exact Except.noConfusion hok

/-- Claim C8: with duplicate-free valid model names of which exactly one
throws during fit/predict, `train_models` still returns one TrainingResult
per requested model: the failing one has status error with the failure
message, every other one has status success. -/
theorem train_models_isolates_failure
    (df : DataFrame) (target : String) (selectedModels : List String)
    (config : TrainConfig) (behavior : String → ModelOutcome) (tc : Column)
    (f : String) (emsg : String)
    (hcol : df.cols.lookup target = some tc)
    (hvalid : ∀ m ∈ selectedModels,
      (modelDict (determineProblemType df.rows tc)).contains m = true)
    (hnd : selectedModels.Nodup)
    (hf : f ∈ selectedModels)
    (hfail : behavior f = ModelOutcome.raises emsg)
    (hok : ∀ m ∈ selectedModels, m ≠ f →
      ∃ t raw imp, behavior m = ModelOutcome.fitted t raw imp) :
    ∃ out, trainModels df target selectedModels config behavior = Except.ok out
      ∧ out.results.length = selectedModels.length
      ∧ out.results.lookup f
          = some { model := f, status := "error", error := some emsg }
      ∧ (∀ m ∈ selectedModels, m ≠ f →
          ∃ r, out.results.lookup m = some r ∧ r.status = "success") := by
  have hempty : (selectedModels.filter
      (fun m => ! (modelDict (determineProblemType df.rows tc)).contains m)).isEmpty
        = true := by
    rw [List.isEmpty_iff]
    rw [List.filter_eq_nil_iff]
    intro m hm
    rw [hvalid m hm]
    simp
  have hloop := train_loop_eq (determineProblemType df.rows tc) behavior
    (modelDict (determineProblemType df.rows tc)) selectedModels []
    hvalid (fun m _ => rfl) hnd
  refine ⟨{ results := selectedModels.map (fun n => (n, trainSingleModel (determineProblemType df.rows tc) behavior n)),
            problem_type := determineProblemType df.rows tc,
            train_rows := df.rows - testCount df.rows (adjustedTestSize df.rows (config.test_size.getD defaultTestSize)),
            test_rows := testCount df.rows (adjustedTestSize df.rows (config.test_size.getD defaultTestSize)) },
    ?_, ?_, ?_, ?_⟩
  · unfold trainModels
    rw [hcol]
    simp only [hempty, if_true]
    rw [hloop, List.nil_append]
  · simp
  · rw [lookup_map_self selectedModels f hf]
    unfold trainSingleModel
    rw [hfail]
  · intro m hm hmf
    rw [lookup_map_self selectedModels m hm]
    obtain ⟨t, raw, imp, hbm⟩ := hok m hm hmf
    refine ⟨_, rfl, ?_⟩
    unfold trainSingleModel
    rw [hbm]

/-- Witness for C7: requesting `linear_regression` and `made_up_model` on a
regression target produces the request-level error built from the invalid
name and the regression registry. -/
theorem train_models_invalid_models_witness :
    trainModels
      { rows := 10, duplicates := 0,
        cols := [("y", { dtype := DType.numeric, nunique := 9, missing := 0,
                         counts := [], variance := PyFloat.finite 1 })] }
      "y" ["linear_regression", "made_up_model"] {}
      (fun _ => ModelOutcome.raises "unused")
      = Except.error (invalidModelsMessage
          (["linear_regression", "made_up_model"].filter
            (fun m => ! (modelDict (determineProblemType 10
              { dtype := DType.numeric, nunique := 9, missing := 0,
                counts := [], variance := PyFloat.finite 1 })).contains m))
          (determineProblemType 10
            { dtype := DType.numeric, nunique := 9, missing := 0,
              counts := [], variance := PyFloat.finite 1 })
          (modelDict (determineProblemType 10
            { dtype := DType.numeric, nunique := 9, missing := 0,
              counts := [], variance := PyFloat.finite 1 }))) :=
  (train_models_invalid_models
    { rows := 10, duplicates := 0,
      cols := [("y", { dtype := DType.numeric, nunique := 9, missing := 0,
                       counts := [], variance := PyFloat.finite 1 })] }
    "y" ["linear_regression", "made_up_model"] {}
    (fun _ => ModelOutcome.raises "unused")
    { dtype := DType.numeric, nunique := 9, missing := 0,
      counts := [], variance := PyFloat.finite 1 }
    (by rfl)
    ⟨"made_up_model", by simp, by
      have hpt : determineProblemType 10
          { dtype := DType.numeric, nunique := 9, missing := 0,
            counts := [], variance := PyFloat.finite 1 } = "regression" := by
        norm_num [determineProblemType]
      rw [hpt]
      decide⟩).2.1

/-- Witness for C8: of two valid classification models where only `svm`
throws, both results are returned, `svm` marked error and the other
success. -/
theorem train_models_isolates_failure_witness :
    ∃ out, trainModels
        { rows := 10, duplicates := 0,
          cols := [("t", { dtype := DType.categorical, nunique := 2, missing := 0,
                           counts := [5, 5], variance := PyFloat.nan })] }
        "t" ["random_forest", "svm"] {}
        (fun n => if n == "svm" then ModelOutcome.raises "boom"
                  else ModelOutcome.fitted 1
                    ⟨PyFloat.finite 1, PyFloat.finite 1, PyFloat.finite 1,
                     PyFloat.finite 1, PyFloat.finite 1, PyFloat.finite 1,
                     PyFloat.finite 1, PyFloat.finite 1, PyFloat.finite 1,
                     PyFloat.finite 1⟩ [])
        = Except.ok out
      ∧ out.results.length = ["random_forest", "svm"].length
      ∧ out.results.lookup "svm"
          = some { model := "svm", status := "error", error := some "boom" }
      ∧ (∀ m ∈ ["random_forest", "svm"], m ≠ "svm" →
          ∃ r, out.results.lookup m = some r ∧ r.status = "success") :=
  train_models_isolates_failure
    { rows := 10, duplicates := 0,
      cols := [("t", { dtype := DType.categorical, nunique := 2, missing := 0,
                       counts := [5, 5], variance := PyFloat.nan })] }
    "t" ["random_forest", "svm"] {}
    (fun n => if n == "svm" then ModelOutcome.raises "boom"
              else ModelOutcome.fitted 1
                ⟨PyFloat.finite 1, PyFloat.finite 1, PyFloat.finite 1,
                 PyFloat.finite 1, PyFloat.finite 1, PyFloat.finite 1,
                 PyFloat.finite 1, PyFloat.finite 1, PyFloat.finite 1,
                 PyFloat.finite 1⟩ [])
    { dtype := DType.categorical, nunique := 2, missing := 0,
      counts := [5, 5], variance := PyFloat.nan }
    "svm" "boom"
    (by rfl)
    (by decide)
    (by decide)
    (by decide)
    (by rfl)
    (by
      intro m hm hne
      rcases List.mem_cons.mp hm with rfl | hm'
      · exact ⟨1, ⟨PyFloat.finite 1, PyFloat.finite 1, PyFloat.finite 1,
          PyFloat.finite 1, PyFloat.finite 1, PyFloat.finite 1, PyFloat.finite 1,
          PyFloat.finite 1, PyFloat.finite 1, PyFloat.finite 1⟩, [], rfl⟩
      · rcases List.mem_cons.mp hm' with rfl | hm''
        · exact absurd rfl hne
        · exact absurd hm'' (List.not_mem_nil m))

/-- The problem type detected by `compare_models` is always one of the two
recognized strings. -/
theorem detectProblemType_mem (results : List (String × EvalResult)) (pt : String)
    (h : detectProblemType results = some pt) :
    pt = "classification" ∨ pt = "regression" := by
  unfold detectProblemType at h
  cases hf : results.find? (fun p => p.2.status == "success") with
  | none => rw [hf] at h; exact absurd h (by simp)
  | some p =>
    rw [hf] at h
    simp only [] at h
    by_cases h1 : ((p.2.metrics.lookup "accuracy").isSome) = true
    · rw [if_pos h1] at h
      exact Or.inl (Option.some.injEq _ _ ▸ h.symm ▸ rfl)
    · rw [if_neg h1] at h
      by_cases h2 : ((p.2.metrics.lookup "mse").isSome) = true
      · rw [if_pos h2] at h
        exact Or.inr (Option.some.injEq _ _ ▸ h.symm ▸ rfl)
      · rw [if_neg h2] at h
        exact absurd h (by simp)

/-- The descending ranking comparison is transitive. -/
theorem evalLe_trans (pm : String) (deflt : WithBot ℚ) :
    ∀ a b c : String × EvalResult,
      evalLe pm deflt a b = true → evalLe pm deflt b c = true →
        evalLe pm deflt a c = true := by
  intro a b c hab hbc
  unfold evalLe at *
  rw [decide_eq_true_iff] at *
  exact le_trans hbc hab

/-- The descending ranking comparison is total. -/
theorem evalLe_total (pm : String) (deflt : WithBot ℚ) :
    ∀ a b : String × EvalResult,
      (evalLe pm deflt a b || evalLe pm deflt b a) = true := by
  intro a b
  unfold evalLe
  rcases le_total (rankKey pm deflt b.2) (rankKey pm deflt a.2) with h | h
  · simp [h]
  · simp [h]

/-- The ranking rows built from the sorted successful results are pairwise
descending in the primary-metric key. -/
theorem ranking_pairwise (pm : String) (deflt : WithBot ℚ)
    (l : List (String × EvalResult)) :
    ((l.mergeSort (evalLe pm deflt)).enum.map (fun p =>
      ({ rank := p.1 + 1, model := p.2.1,
         primary_score := p.2.2.metrics.lookup pm,
         training_time := p.2.2.training_time } : RankEntry))).Pairwise
      (fun a b => entryKey deflt b ≤ entryKey deflt a) := by
  have hsorted := List.sorted_mergeSort (evalLe_trans pm deflt) (evalLe_total pm deflt) l
  have h1 : (l.mergeSort (evalLe pm deflt)).Pairwise
      (fun a b => rankKey pm deflt b.2 ≤ rankKey pm deflt a.2) := by
    refine hsorted.imp ?_
    intro a b hab
    unfold evalLe at hab
    rwa [decide_eq_true_iff] at hab
  rw [← List.enum_map_snd (l.mergeSort (evalLe pm deflt))] at h1
  have h2 := (List.pairwise_map).mp h1
  refine (List.pairwise_map).mpr ?_
  refine h2.imp ?_
  intro p q hpq
  exact hpq

/-- Shape of every successful `compare_models` report: the detected problem
type, the primary metric and default chosen from it, the ranking as the
enumerated stable sort of the successful results, and the best model as the
head of that sort. -/
theorem compareModels_ok_shape (results : List (String × EvalResult))
    (rep : ComparisonReport) (h : compareModels results = Except.ok rep) :
    ∃ pt pm deflt x xs,
      detectProblemType results = some pt
      ∧ rep.problem_type = pt
      ∧ pm = (if pt == "classification" then "f1_score" else "r2_score")
      ∧ deflt = (if pt == "classification" then ((0 : ℚ) : WithBot ℚ) else (⊥ : WithBot ℚ))
      ∧ rep.primary_metric = pm
      ∧ (results.filter (fun p => p.2.status == "success")).mergeSort (evalLe pm deflt)
          = x :: xs
      ∧ rep.ranking
          = ((results.filter (fun p => p.2.status == "success")).mergeSort
              (evalLe pm deflt)).enum.map (fun p =>
                ({ rank := p.1 + 1, model := p.2.1,
                   primary_score := p.2.2.metrics.lookup pm,
                   training_time := p.2.2.training_time } : RankEntry))
      ∧ rep.best_model = some x.1 := by
  unfold compareModels at h
  by_cases hres : results.isEmpty = true
  · rw [if_pos hres] at h
    exact absurd h (by simp)
  · simp only [Bool.of_not_eq_true hres, Bool.false_eq_true, if_false] at h
    cases hdet : detectProblemType results with
    | none => rw [hdet] at h; exact absurd h (by simp)
    | some pt =>
      rw [hdet] at h
      simp only [] at h
      by_cases hsucc :
          ((results.filter (fun p => p.2.status == "success")).isEmpty) = true
      · rw [if_pos hsucc] at h
        exact absurd h (by simp)
      · simp only [Bool.of_not_eq_true hsucc, Bool.false_eq_true, if_false] at h
        rw [Except.ok.injEq] at h
        have hne : (results.filter (fun p => p.2.status == "success")).mergeSort
            (evalLe (if pt == "classification" then "f1_score" else "r2_score")
              (if pt == "classification" then ((0 : ℚ) : WithBot ℚ) else ⊥)) ≠ [] := by
          intro h0
          have hlen := (List.mergeSort_perm
            (results.filter (fun p => p.2.status == "success"))
            (evalLe (if pt == "classification" then "f1_score" else "r2_score")
              (if pt == "classification" then ((0 : ℚ) : WithBot ℚ) else ⊥))).length_eq
          rw [h0] at hlen
          have hnil : results.filter (fun p => p.2.status == "success") = [] :=
            List.eq_nil_of_length_eq_zero hlen.symm
          rw [← List.isEmpty_iff] at hnil
          exact hsucc hnil
        obtain ⟨x, xs, hx⟩ := List.exists_cons_of_ne_nil hne
        subst h
        refine ⟨pt, _, _, x, xs, rfl, rfl, rfl, rfl, rfl, hx, rfl, ?_⟩
        simp only []
        rw [hx]
        rfl

/-- Claim C2 (amended): when no result has status success, `compare_models`
returns an error-shaped response (a message, no report, no exception) rather
than a report with a null best_model; whenever it does return a report, its
best_model is the top-ranked model. -/
theorem compare_models_best_model (results : List (String × EvalResult)) :
    ((∀ p ∈ results, p.2.status ≠ "success") →
      ∃ msg, compareModels results = Except.error msg)
    ∧ (∀ rep, compareModels results = Except.ok rep →
        ∃ e rest, rep.ranking = e :: rest ∧ e.rank = 1
          ∧ rep.best_model = some e.model) := by
  constructor
  · intro hfail
    by_cases hres : results.isEmpty = true
    · refine ⟨"No model results provided", ?_⟩
      unfold compareModels
      rw [if_pos hres]
    · have hfind : results.find? (fun p => p.2.status == "success") = Option.none :=
        List.find?_eq_none.mpr (fun p hp => by
          simp only [beq_iff_eq]
          simpa using hfail p hp)
      have hdet : detectProblemType results = Option.none := by
        unfold detectProblemType
        rw [hfind]
      refine ⟨"Could not determine problem type from results", ?_⟩
      unfold compareModels
      simp only [Bool.of_not_eq_true hres, Bool.false_eq_true, if_false]
      rw [hdet]
  · intro rep hok
    obtain ⟨pt, pm, deflt, x, xs, _, _, _, _, _, hx, hrank, hbest⟩ :=
      compareModels_ok_shape results rep hok
    refine ⟨{ rank := 0 + 1, model := x.1, primary_score := x.2.metrics.lookup pm, training_time := x.2.training_time },
            (List.enumFrom 1 xs).map (fun p => { rank := p.1 + 1, model := p.2.1, primary_score := p.2.2.metrics.lookup pm, training_time := p.2.2.training_time }),
            ?_, rfl, ?_⟩
    · rw [hrank, hx, List.enum_cons, List.map_cons]
    · rw [hbest]

/-- Counterexample for C2: a map whose only result failed makes
`compare_models` return an error-only response, not a report with a null
best_model. -/
theorem compare_models_all_failed_cex :
    compareModels
        [("model_a", { status := "error", metrics := [], training_time := Option.none })]
      = Except.error "Could not determine problem type from results"
    ∧ ∀ rep, compareModels
        [("model_a", { status := "error", metrics := [], training_time := Option.none })]
      ≠ Except.ok rep := by
  have h1 : compareModels
      [("model_a", { status := "error", metrics := [], training_time := Option.none })]
    = Except.error "Could not determine problem type from results" := rfl
  exact ⟨h1, fun rep h => Except.noConfusion (h1.symm.trans h)⟩

/-- Witness for C2 (amended): an all-failed input yields an error message,
and a one-success input yields a report whose best_model heads the
ranking. -/
theorem compare_models_best_model_witness :
    (∃ msg, compareModels
        [("model_b", { status := "error", metrics := [], training_time := Option.none })]
      = Except.error msg)
    ∧ (∃ e rest,
        ({ problem_type := "classification", primary_metric := "f1_score", model_count := 1, ranking := [{ rank := 1, model := "model_c", primary_score := some 1, training_time := some 2 }], best_model := some "model_c" } : ComparisonReport).ranking = e :: rest
        ∧ e.rank = 1
        ∧ ({ problem_type := "classification", primary_metric := "f1_score", model_count := 1, ranking := [{ rank := 1, model := "model_c", primary_score := some 1, training_time := some 2 }], best_model := some "model_c" } : ComparisonReport).best_model = some e.model) :=
  ⟨(compare_models_best_model
      [("model_b", { status := "error", metrics := [], training_time := Option.none })]).1
    (by
      intro p hp
      simp only [List.mem_singleton] at hp
      rw [hp]
      decide),
   (compare_models_best_model
      [("model_c", { status := "success", metrics := [("accuracy", (1 : ℚ)), ("f1_score", 1)], training_time := some 2 })]).2
    { problem_type := "classification", primary_metric := "f1_score", model_count := 1, ranking := [{ rank := 1, model := "model_c", primary_score := some 1, training_time := some 2 }], best_model := some "model_c" }
    (by
      norm_num [compareModels, detectProblemType, evalLe, rankKey, List.mergeSort,
        List.lookup, List.enum, List.enumFrom]
      rfl)⟩

/-- Claim C1 (amended): the comparison report ranks successful models by the
`f1_score` metric when it detects classification and by `r2_score` (test R²)
when it detects regression, and reports that metric key as its
primary_metric; the orchestrator's lighter quick comparison — not the
ComparisonReport producer — is the path keyed on test accuracy. -/
theorem compare_models_primary_metric (results : List (String × EvalResult))
    (rep : ComparisonReport) (h : compareModels results = Except.ok rep) :
    (rep.problem_type = "classification" ∨ rep.problem_type = "regression")
    ∧ (rep.problem_type = "classification" →
        rep.primary_metric = "f1_score"
        ∧ rep.ranking.Pairwise (fun a b =>
            entryKey ((0 : ℚ) : WithBot ℚ) b ≤ entryKey ((0 : ℚ) : WithBot ℚ) a))
    ∧ (rep.problem_type = "regression" →
        rep.primary_metric = "r2_score"
        ∧ rep.ranking.Pairwise (fun a b =>
            entryKey (⊥ : WithBot ℚ) b ≤ entryKey (⊥ : WithBot ℚ) a)) := by
  obtain ⟨pt, pm, deflt, x, xs, hdet, hpt, hpm, hdeflt, hpm2, hx, hrank, hbest⟩ :=
    compareModels_ok_shape results rep h
  have hcases := detectProblemType_mem results pt hdet
  refine ⟨?_, ?_, ?_⟩
  · rw [hpt]; exact hcases
  · intro hclass
    rw [hpt] at hclass
    subst hclass
    have hpmv : pm = "f1_score" := by rw [hpm]; rfl
    have hdefltv : deflt = ((0 : ℚ) : WithBot ℚ) := by rw [hdeflt]; rfl
    subst hpmv
    subst hdefltv
    exact ⟨hpm2, by rw [hrank]; exact ranking_pairwise _ _ _⟩
  · intro hreg
    rw [hpt] at hreg
    subst hreg
    have hpmv : pm = "r2_score" := by rw [hpm]; rfl
    have hdefltv : deflt = (⊥ : WithBot ℚ) := by rw [hdeflt]; rfl
    subst hpmv
    subst hdefltv
    exact ⟨hpm2, by rw [hrank]; exact ranking_pairwise _ _ _⟩

/-- Counterexample for C1: two successful classification results where the
accuracy order and F1 order disagree; `compare_models` reports
primary_metric `f1_score` (not accuracy) and ranks the lower-accuracy,
higher-F1 model first. -/
theorem compare_models_not_accuracy_cex :
    ∃ rep, compareModels
        [("model_a", { status := "success", metrics := [("accuracy", (9 : ℚ)), ("f1_score", 1)], training_time := some 1 }),
         ("model_b", { status := "success", metrics := [("accuracy", (5 : ℚ)), ("f1_score", 8)], training_time := some 1 })]
        = Except.ok rep
      ∧ rep.problem_type = "classification"
      ∧ rep.primary_metric = "f1_score"
      ∧ rep.primary_metric ≠ "accuracy"
      ∧ rep.primary_metric ≠ "test_accuracy"
      ∧ rep.ranking.map (fun e => e.model) = ["model_b", "model_a"]
      ∧ rep.best_model = some "model_b" := by
  refine ⟨{ problem_type := "classification", primary_metric := "f1_score", model_count := 2, ranking := [{ rank := 1, model := "model_b", primary_score := some 8, training_time := some 1 }, { rank := 2, model := "model_a", primary_score := some 1, training_time := some 1 }], best_model := some "model_b" }, ?_, rfl, rfl, by simp, by simp, rfl, rfl⟩
  have hb1 : ("f1_score" == "accuracy") = false := rfl
  have hb2 : ("f1_score" == "f1_score") = true := rfl
  norm_num [compareModels, detectProblemType, evalLe, rankKey, List.mergeSort,
    List.merge, List.lookup, List.enum, List.enumFrom, List.head?, hb1, hb2]

/-- Witness for C1 (amended): a concrete one-model classification input
yields a report with primary_metric `f1_score` and a descending ranking. -/
theorem compare_models_primary_metric_witness :
    (({ problem_type := "classification", primary_metric := "f1_score", model_count := 1, ranking := [{ rank := 1, model := "model_d", primary_score := some 3, training_time := some 1 }], best_model := some "model_d" } : ComparisonReport).problem_type = "classification"
      ∨ ({ problem_type := "classification", primary_metric := "f1_score", model_count := 1, ranking := [{ rank := 1, model := "model_d", primary_score := some 3, training_time := some 1 }], best_model := some "model_d" } : ComparisonReport).problem_type = "regression")
    ∧ (({ problem_type := "classification", primary_metric := "f1_score", model_count := 1, ranking := [{ rank := 1, model := "model_d", primary_score := some 3, training_time := some 1 }], best_model := some "model_d" } : ComparisonReport).problem_type = "classification" →
        ({ problem_type := "classification", primary_metric := "f1_score", model_count := 1, ranking := [{ rank := 1, model := "model_d", primary_score := some 3, training_time := some 1 }], best_model := some "model_d" } : ComparisonReport).primary_metric = "f1_score"
        ∧ ({ problem_type := "classification", primary_metric := "f1_score", model_count := 1, ranking := [{ rank := 1, model := "model_d", primary_score := some 3, training_time := some 1 }], best_model := some "model_d" } : ComparisonReport).ranking.Pairwise (fun a b =>
            entryKey ((0 : ℚ) : WithBot ℚ) b ≤ entryKey ((0 : ℚ) : WithBot ℚ) a))
    ∧ (({ problem_type := "classification", primary_metric := "f1_score", model_count := 1, ranking := [{ rank := 1, model := "model_d", primary_score := some 3, training_time := some 1 }], best_model := some "model_d" } : ComparisonReport).problem_type = "regression" →
        ({ problem_type := "classification", primary_metric := "f1_score", model_count := 1, ranking := [{ rank := 1, model := "model_d", primary_score := some 3, training_time := some 1 }], best_model := some "model_d" } : ComparisonReport).primary_metric = "r2_score"
        ∧ ({ problem_type := "classification", primary_metric := "f1_score", model_count := 1, ranking := [{ rank := 1, model := "model_d", primary_score := some 3, training_time := some 1 }], best_model := some "model_d" } : ComparisonReport).ranking.Pairwise (fun a b =>
            entryKey (⊥ : WithBot ℚ) b ≤ entryKey (⊥ : WithBot ℚ) a)) :=
  compare_models_primary_metric
    [("model_d", { status := "success", metrics := [("accuracy", (1 : ℚ)), ("f1_score", 3)], training_time := some 1 })]
    { problem_type := "classification", primary_metric := "f1_score", model_count := 1, ranking := [{ rank := 1, model := "model_d", primary_score := some 3, training_time := some 1 }], best_model := some "model_d" }
    (by
      norm_num [compareModels, detectProblemType, evalLe, rankKey, List.mergeSort,
        List.lookup, List.enum, List.enumFrom]
      rfl)
